import Mathlib

/-!
# Verification of the kroger-mcp repurchase-prediction and consumption-analytics engine

Shallow embedding of the analytics core of the repository
(`src/kroger_mcp/analytics/{statistics,predictions,categories,seasonal,pantry}.py`)
together with theorems settling the frozen specification claims.

Modelling conventions:
* Calendar dates (`datetime.date` / date-only `datetime` values) are represented by the
  structure `PDate` (year/month/day) together with their day number `toDays` (days since
  1970-01-01, Hinnant's `days_from_civil` algorithm, which is exactly what CPython's
  `datetime.date.toordinal` is equivalent to up to a constant shift).  Differences of
  Python `date`/midnight-`datetime` values in whole days are differences of `toDays`.
* Python `int` and float arithmetic on the values handled here is modelled exactly over
  `ℤ` / `ℚ`; `math.sqrt` (inside `statistics.stdev`) is modelled by `Real.sqrt`.
* Python `//` and `%` on integers (floor division, remainder with the divisor's sign)
  agree with Lean's `/` and `%` on `ℤ` for the positive divisors used here.
* Python's `round` (banker's rounding, half to even) is modelled by `pyRound`.
* Dictionary fields that may be absent or `NULL` are modelled with `Option`.
-/

/-- A calendar date `(year, month, day)`, the model of a parsed Python `date` /
date-only `datetime`. -/
structure PDate where
  year : Int
  month : Int
  day : Int
deriving DecidableEq, Repr

/-- Day number of a calendar date: days since 1970-01-01 (Hinnant's
`days_from_civil`).  Models `datetime.date` subtraction: `(a - b).days = toDays a - toDays b`. -/
def toDays (d : PDate) : Int :=
  let y : Int := if d.month ≤ 2 then d.year - 1 else d.year
  let era : Int := y / 400
  let yoe : Int := y - era * 400
  let mp : Int := (d.month + 9) % 12
  let doy : Int := (153 * mp + 2) / 5 + d.day - 1
  let doe : Int := yoe * 365 + yoe / 4 - yoe / 100 + doy
  era * 146097 + doe - 719468

/-- Python's `date.weekday()`: Monday = 0, …, Sunday = 6.  1970-01-01 was a Thursday
(weekday 3). -/
def pyWeekday (t : Int) : Int := (t + 3) % 7

/-- Python's built-in `round(x)`: round half to even (banker's rounding). -/
def pyRound (q : ℚ) : Int :=
  let f : Int := ⌊q⌋
  if q - f < 1/2 then f
  else if (1:ℚ)/2 < q - f then f + 1
  else if f % 2 = 0 then f else f + 1

/-- Python's `round(x, 1)`. -/
def pyRound1 (q : ℚ) : ℚ := (pyRound (10 * q) : ℚ) / 10

/-- Python's `round(x, 2)`. -/
def pyRound2 (q : ℚ) : ℚ := (pyRound (100 * q) : ℚ) / 100

/-! ## Consumption-Rate Estimator (`analytics/statistics.py`)

`calculate_consumption_rate` receives a list of event dicts; it only reads the
`event_date` field, parsing it with `_parse_date` (which yields `None` on a missing or
malformed date).  An event is therefore modelled by its parsed date `Option PDate`
(plus the quantity, which the orchestrator reads). -/

/-- A purchase event as consumed by the estimator: the parsed `event_date`
(`none` ↔ `_parse_date` returned `None`) and the `quantity` field. -/
structure CEvent where
  event_date : Option PDate
  quantity : Int
deriving DecidableEq, Repr

/-- The interval extraction of `calculate_consumption_rate` (lines 47–56): for each
consecutive pair whose dates both parsed, keep the day difference if it is positive. -/
def intervalsOf : List CEvent → List Int
  | [] => []
  | [_] => []
  | a :: b :: rest =>
    (match a.event_date, b.event_date with
     | some p, some c => if 0 < toDays c - toDays p then [toDays c - toDays p] else []
     | _, _ => []) ++ intervalsOf (b :: rest)

/-- The EWMA weight list of `calculate_consumption_rate` (lines 66–69):
`[0.5 ** i for i in range(n)]` followed by `reverse()`. -/
def ewmaWeights (n : Nat) : List ℚ :=
  ((List.range n).map (fun i => (1/2 : ℚ) ^ i)).reverse

/-- The weighted average on line 71: `sum(w * v for w, v in zip(weights, intervals)) /
sum(weights)`. -/
def ewmaOf (intervals : List Int) : ℚ :=
  (List.zipWith (fun (w : ℚ) (v : Int) => w * (v : ℚ))
      (ewmaWeights intervals.length) intervals).sum
    / (ewmaWeights intervals.length).sum

/-- Exact mean of a list of integers, as `statistics.mean` computes it. -/
def listMean (xs : List Int) : ℚ := ((xs.map (fun x => (x : ℚ))).sum) / xs.length

/-- The sample variance with Bessel's correction (divisor `n - 1`): the square of what
Python's `statistics.stdev` returns. -/
def sampleVar (xs : List Int) : ℚ :=
  ((xs.map (fun x => ((x : ℚ) - listMean xs) ^ 2)).sum) / (xs.length - 1)

/-- Python's `statistics.stdev` (sample standard deviation, divisor `n - 1`). -/
noncomputable def pyStdev (xs : List Int) : ℝ := Real.sqrt (sampleVar xs)

/-- Result record of `calculate_consumption_rate` (the `ConsumptionRate` dataclass). -/
structure ConsumptionRate where
  days_between : Option ℚ
  std_dev : ℝ
  confidence : ℝ
  sample_size : Nat

/-- `calculate_consumption_rate` (statistics.py lines 25–91), modelled field by field:
fewer than 2 events or no positive interval ⇒ the "no data" record; otherwise EWMA of
the intervals, `statistics.stdev` of the intervals (0 if only one interval), and
confidence `min(1, n/10) * (1 - min(1, std/ewma))` (consistency 0 if `ewma ≤ 0`). -/
noncomputable def calculate_consumption_rate (purchase_events : List CEvent) :
    ConsumptionRate :=
  if purchase_events.length < 2 then
    { days_between := none, std_dev := 0, confidence := 0,
      sample_size := purchase_events.length }
  else
    let intervals := intervalsOf purchase_events
    if intervals = [] then
      { days_between := none, std_dev := 0, confidence := 0,
        sample_size := purchase_events.length }
    else
      let ewma := ewmaOf intervals
      let std_dev : ℝ := if 1 < intervals.length then pyStdev intervals else 0
      let data_confidence : ℝ := min 1 ((intervals.length : ℝ) / 10)
      let consistency : ℝ :=
        if 0 < ewma then 1 - min 1 (std_dev / (ewma : ℝ)) else 0
      { days_between := some ewma,
        std_dev := std_dev,
        confidence := data_confidence * consistency,
        sample_size := intervals.length }

/-! ## Seasonality score (`analytics/seasonal.py`, lines 155–200) -/

/-- Monthly purchase histogram: `[monthly_counts.get(m, 0) for m in range(1, 13)]`.
Events whose date failed to parse are skipped (the `except: continue` branch). -/
def monthCounts (events : List CEvent) : List Int :=
  (List.range 12).map (fun i =>
    ((events.filter (fun e =>
      match e.event_date with
      | some d => d.month == (i : Int) + 1
      | none => false)).length : Int))

/-- `calculate_seasonality_score`: 0 for fewer than 4 events; otherwise
`min(1, cv / 2)` with `cv = stdev(counts) / mean(counts)` over the zero-filled
12-month histogram, and 0 if the mean is 0.  (`len(counts)` is always 12, so the
`stdev` branch of line 196 always applies.) -/
noncomputable def calculate_seasonality_score (events : List CEvent) : ℝ :=
  if events.length < 4 then 0
  else
    let counts := monthCounts events
    let mean := listMean counts
    if mean = 0 then 0
    else min 1 (pyStdev counts / (mean : ℝ) / 2)

/-! ## Configuration (`analytics/config.py`, `PredictionConfig` defaults) -/

/-- The `PredictionConfig` dataclass with its default values.  Decimal float
defaults are modelled by the exact rationals they denote. -/
structure PredictionConfig where
  ewma_alpha : ℚ := 3/10
  buffer_routine : ℚ := 1
  buffer_regular : ℚ := 1/2
  buffer_treat : ℚ := 0
  routine_max_days : Int := 14
  regular_max_days : Int := 60
  seasonality_threshold : ℚ := 7/10
  urgency_critical : ℚ := 9/10
  urgency_high : ℚ := 7/10
  urgency_medium : ℚ := 4/10
  min_purchases_for_prediction : Nat := 2
  max_confidence_purchases : Nat := 10

/-! ## Category Classifier (`analytics/categories.py`) -/

/-- `detect_category` (categories.py lines 27–68): fewer than 3 purchases ⇒
`uncategorized`; seasonality above the configured threshold ⇒ `treat`; unknown
average interval ⇒ `uncategorized`; otherwise the configured interval thresholds,
with the hard-coded `seasonality_score > 0.4` tie-break for infrequent items. -/
noncomputable def detect_category (avg_days : Option ℚ) (seasonality_score : ℝ)
    (total_purchases : Int) (config : PredictionConfig) : String :=
  if total_purchases < 3 then "uncategorized"
  else if (config.seasonality_threshold : ℝ) < seasonality_score then "treat"
  else
    match avg_days with
    | none => "uncategorized"
    | some avg =>
      if avg ≤ (config.routine_max_days : ℚ) then "routine"
      else if avg ≤ (config.regular_max_days : ℚ) then "regular"
      else if ((2/5 : ℚ) : ℝ) < seasonality_score then "treat"
      else "regular"

/-! ## Statistics Orchestrator (`analytics/statistics.py`, `update_product_stats`) -/

/-- A row of the `purchase_events` ledger table.  `event_date` is stored as a
`YYYY-MM-DD` string written by the recording code, so parsing it back yields exactly
this calendar date; `event_timestamp` (epoch seconds) is never read by the
statistics pipeline. -/
structure LedgerEvent where
  product_id : String
  quantity : Int
  event_type : String
  event_date : PDate
  event_timestamp : ℚ
deriving DecidableEq, Repr

/-- The `CEvent` view of a ledger row: the stored ISO date always parses. -/
def toCEvent (e : LedgerEvent) : CEvent := ⟨some e.event_date, e.quantity⟩

/-- Insertion step of a date-sort (a model of SQL `ORDER BY event_date ASC`;
ties keep their relative order, which does not affect any derived statistic). -/
def insertByDate (e : LedgerEvent) : List LedgerEvent → List LedgerEvent
  | [] => [e]
  | x :: xs =>
    if toDays e.event_date < toDays x.event_date then e :: x :: xs
    else x :: insertByDate e xs

/-- Sort a list of ledger rows ascending by `event_date`. -/
def sortByDate : List LedgerEvent → List LedgerEvent
  | [] => []
  | x :: xs => insertByDate x (sortByDate xs)

/-- The SQL query of `update_product_stats` (statistics.py lines 123–127): all
events of the product with `event_type IN ('order_placed', 'pantry_depleted')`,
ascending by date. -/
def eventsFor (product_id : String) (ledger : List LedgerEvent) : List LedgerEvent :=
  sortByDate (ledger.filter (fun e =>
    e.product_id == product_id &&
      (e.event_type == "order_placed" || e.event_type == "pantry_depleted")))

/-- A row of the `product_statistics` table, exactly the columns written by the
upsert of `update_product_stats` (statistics.py lines 167–199).  `updated_at` is the
wall-clock timestamp `datetime.now().isoformat()` taken at line 164. -/
structure StatsRow where
  total_purchases : Int
  total_quantity : Int
  avg_quantity_per_purchase : ℚ
  avg_days_between_purchases : Option ℚ
  std_dev_days : ℝ
  last_purchase_date : Option PDate
  first_purchase_date : Option PDate
  purchase_frequency_score : ℚ
  seasonality_score : ℝ
  detected_category : String
  updated_at : ℚ

/-- `update_product_stats` (statistics.py lines 107–217) as a function of the event
ledger, the configuration and the wall-clock time `now`: the row persisted for the
product, or `none` when the product has no qualifying events (the early return on
line 131, which skips the upsert). -/
noncomputable def update_product_stats (ledger : List LedgerEvent)
    (product_id : String) (config : PredictionConfig) (now : ℚ) : Option StatsRow :=
  let events := eventsFor product_id ledger
  if events = [] then none
  else
    let total_purchases : Int := events.length
    let total_quantity : Int := (events.map (·.quantity)).sum
    let avg_quantity : ℚ :=
      if 0 < total_purchases then (total_quantity : ℚ) / (total_purchases : ℚ) else 0
    let consumption := calculate_consumption_rate (events.map toCEvent)
    let first_date := events.head?.map (·.event_date)
    let last_date := events.getLast?.map (·.event_date)
    let frequency_score : ℚ :=
      match consumption.days_between with
      | some d => if 0 < d then 1 / d else 0
      | none => 0
    let seasonality := calculate_seasonality_score (events.map toCEvent)
    let detected :=
      detect_category consumption.days_between seasonality total_purchases config
    some { total_purchases := total_purchases
           total_quantity := total_quantity
           avg_quantity_per_purchase := avg_quantity
           avg_days_between_purchases := consumption.days_between
           std_dev_days := consumption.std_dev
           last_purchase_date := last_date
           first_purchase_date := first_date
           purchase_frequency_score := frequency_score
           seasonality_score := seasonality
           detected_category := detected
           updated_at := now }

/-! ## Product category table (`analytics/categories.py`) -/

/-- The category columns of a `products` row. -/
structure ProductRow where
  category_type : String
  category_override : Bool
deriving DecidableEq, Repr

/-- The `products` table (keyed by `product_id`). -/
abbrev ProductsTable := List (String × ProductRow)

/-- `SELECT ... FROM products WHERE product_id = ?` (first matching row). -/
def lookupProduct (product_id : String) (tbl : ProductsTable) : Option ProductRow :=
  (tbl.find? (fun p => p.1 == product_id)).map (·.2)

/-- The `CategoryResult` dataclass. -/
structure CategoryResult where
  product_id : String
  category : String
  previous_category : Option String
  was_override : Bool
deriving DecidableEq, Repr

/-- `set_product_category` (categories.py lines 71–133): rejects an invalid category
name (`raise ValueError`); otherwise updates the existing row's `category_type` and
`category_override`, or inserts a new row. -/
def set_product_category (tbl : ProductsTable) (product_id : String)
    (category : String) (is_override : Bool) :
    Except String (ProductsTable × CategoryResult) :=
  if category ∉ ["routine", "regular", "treat", "uncategorized"] then
    .error ("Invalid category: " ++ category)
  else
    match lookupProduct product_id tbl with
    | some row =>
      .ok (tbl.map (fun p =>
            if p.1 == product_id then
              (p.1, { category_type := category, category_override := is_override })
            else p),
          { product_id := product_id, category := category,
            previous_category := some row.category_type,
            was_override := row.category_override })
    | none =>
      .ok (tbl ++ [(product_id,
            { category_type := category, category_override := is_override })],
          { product_id := product_id, category := category,
            previous_category := none, was_override := false })

/-- The per-product statistics inputs read by `auto_categorize_all`'s `LEFT JOIN`
(`avg_days_between_purchases`, `seasonality_score`, `total_purchases`); `none`
models a product with no statistics row (all columns `NULL`). -/
structure CatStats where
  avg_days : Option ℚ
  seasonality_score : Option ℝ
  total_purchases : Option Int

/-- `auto_categorize_all` (categories.py lines 225–270): every product whose
`category_override` is 0/NULL gets `category_type := detect_category(...)` (with the
`or 0.0` / `or 0` NULL fallbacks of lines 250–251); rows with an override are not
selected and stay untouched. -/
noncomputable def auto_categorize_all (stats : String → Option CatStats)
    (config : PredictionConfig) (tbl : ProductsTable) : ProductsTable :=
  tbl.map (fun p =>
    if p.2.category_override then p
    else
      let s := stats p.1
      let newCat := detect_category
        ((s.bind (·.avg_days)))
        (((s.bind (·.seasonality_score)).getD 0))
        (((s.bind (·.total_purchases)).getD 0))
        config
      (p.1, { p.2 with category_type := newCat }))

/-! ## Repurchase Predictor (`analytics/predictions.py`) -/

/-- `get_urgency_label` (predictions.py lines 30–47). -/
def get_urgency_label (urgency : ℚ) : String :=
  if 9/10 ≤ urgency then "critical"
  else if 7/10 ≤ urgency then "high"
  else if 4/10 ≤ urgency then "medium"
  else "low"

/-- The urgency computation of `predict_repurchase_date` (predictions.py lines
146–161): the piecewise base score from `days_until`, then the routine boost
`min(1, urgency * 1.2)` applied when the base score is positive. -/
def urgencyScore (days_until : Int) (category : String) : ℚ :=
  let urgency : ℚ :=
    if days_until < 0 then 1
    else if days_until = 0 then 9/10
    else if days_until ≤ 14 then 1 - (days_until : ℚ) / 14
    else 0
  if category == "routine" && decide (0 < urgency) then min 1 (urgency * (12/10))
  else urgency

/-- The statistics dict consumed by `predict_repurchase_date` (a
`product_statistics` row joined with the product's `category_type` and
`description`).  `last_purchase_date` distinguishes a missing/empty string
(`none`), a non-empty string that fails to parse (`some none`), and a parsed
date (`some (some d)`). -/
structure StatsView where
  total_purchases : Int
  avg_days_between_purchases : Option ℚ
  std_dev_days : Option ℚ
  last_purchase_date : Option (Option PDate)
  category_type : Option String
  description : Option String
deriving Repr

/-- The `RepurchasePrediction` dataclass.  `predicted_date` is a point in time in
days since the epoch (possibly fractional: `last_date + timedelta(days=avg)` with a
fractional `avg`). -/
structure RepurchasePrediction where
  product_id : String
  description : Option String
  category : String
  predicted_date : Option ℚ
  days_until : Option Int
  urgency : ℚ
  urgency_label : String
  confidence : ℚ
  last_purchase_date : Option (Option PDate)
  avg_days_between : Option ℚ
deriving Repr

/-- The "no prediction" record returned by the three early exits of
`predict_repurchase_date` (lines 70–82, 90–102, 104–123). -/
def noPrediction (product_id : String) (description : Option String)
    (category : String) (last : Option (Option PDate)) (avg : Option ℚ) :
    RepurchasePrediction :=
  { product_id := product_id, description := description, category := category,
    predicted_date := none, days_until := none, urgency := 0,
    urgency_label := "low", confidence := 0,
    last_purchase_date := last, avg_days_between := avg }

/-- `predict_repurchase_date` (predictions.py lines 50–186) as a function of the
(possibly absent) statistics row and the wall-clock time `now` (days since epoch).
Python truthiness: `not avg_days` is true for `None` *and* for `0.0`;
`not last_date_str` is true for `None` and the empty string (`none` in the model);
`std_dev = stats.get('std_dev_days', 0) or 0` maps `NULL` to 0. -/
def predict_repurchase_date (product_id : String) (stats : Option StatsView)
    (now : ℚ) : RepurchasePrediction :=
  match stats with
  | none => noPrediction product_id none "uncategorized" none none
  | some s =>
    if s.total_purchases < 2 then
      noPrediction product_id s.description (s.category_type.getD "uncategorized")
        none none
    else
      let avg_days := s.avg_days_between_purchases
      let std_dev : ℚ := s.std_dev_days.getD 0
      let category := s.category_type.getD "uncategorized"
      if avg_days = none ∨ avg_days = some 0 ∨ s.last_purchase_date = none then
        noPrediction product_id s.description category s.last_purchase_date avg_days
      else
        match s.last_purchase_date with
        | none => noPrediction product_id s.description category
            s.last_purchase_date avg_days
        | some none => noPrediction product_id s.description category
            s.last_purchase_date avg_days
        | some (some last_date) =>
          let avg : ℚ := avg_days.getD 0
          let base_prediction : ℚ := (toDays last_date : ℚ) + avg
          let buffer_multiplier : ℚ :=
            if category == "routine" then 1
            else if category == "regular" then 1/2
            else 0
          let buffer_days := std_dev * buffer_multiplier
          let predicted_date := base_prediction - buffer_days
          let days_until : Int := ⌊predicted_date - now⌋
          let urgency := urgencyScore days_until category
          let data_confidence : ℚ := min 1 ((s.total_purchases : ℚ) / 10)
          let consistency : ℚ :=
            if 0 < avg then 1 - min 1 (std_dev / avg) else 0
          let confidence := data_confidence * consistency
          { product_id := product_id, description := s.description,
            category := category,
            predicted_date := some predicted_date,
            days_until := some days_until,
            urgency := pyRound2 urgency,
            urgency_label := get_urgency_label urgency,
            confidence := pyRound2 confidence,
            last_purchase_date := s.last_purchase_date,
            avg_days_between := some (pyRound1 avg) }

/-! ## Pantry Depletion Model (`analytics/pantry.py`) -/

/-- A row of the `pantry_items` table.  Timestamps (`last_restocked_at`,
`last_updated_at`, ISO strings in the database) are modelled as epoch seconds;
`none` models `NULL`/empty. -/
structure PantryRow where
  description : Option String
  level_percent : ℚ
  last_restocked_at : Option ℚ
  last_updated_at : Option ℚ
  auto_deplete : Bool
  daily_depletion_rate : ℚ
  low_threshold : ℚ
deriving DecidableEq, Repr

/-- The pantry table keyed by `product_id`. -/
abbrev PantryTable := List (String × PantryRow)

/-- `SELECT ... FROM pantry_items WHERE product_id = ?` (first matching row). -/
def lookupPantry (product_id : String) (pantry : PantryTable) : Option PantryRow :=
  (pantry.find? (fun p => p.1 == product_id)).map (·.2)

/-- One item of the list returned by `get_pantry_status` (pantry.py lines 390–401). -/
structure PantryStatusEntry where
  product_id : String
  description : Option String
  level_percent : Int
  status : String
  days_until_empty : Option ℚ
  last_restocked : Option ℚ
  low_threshold : ℚ
  auto_deplete : Bool
  daily_depletion_rate : ℚ
deriving Repr

/-- The per-row body of `get_pantry_status` (pantry.py lines 361–401): lazy decay
`max(0, level - elapsed_days * rate)` with `elapsed_days = (now - last_updated) /
86400` seconds, applied only when `apply_depletion` is set, `auto_deplete` is true
and `daily_depletion_rate` is truthy (non-zero) and `last_updated_at` is present;
then `days_until_empty`, the `out`/`low`/`ok` status, and the rounded fields. -/
def pantryStatusEntry (apply_depletion : Bool) (now : ℚ) (p : String × PantryRow) :
    PantryStatusEntry :=
  let row := p.2
  let level : ℚ :=
    if apply_depletion && row.auto_deplete && !(row.daily_depletion_rate == 0) then
      match row.last_updated_at with
      | some t =>
        max 0 (row.level_percent - (now - t) / 86400 * row.daily_depletion_rate)
      | none => row.level_percent
    else row.level_percent
  let days_until_empty : Option ℚ :=
    if 0 < row.daily_depletion_rate then
      some (pyRound1 (level / row.daily_depletion_rate))
    else none
  let status : String :=
    if level ≤ 0 then "out"
    else if level ≤ row.low_threshold then "low"
    else "ok"
  { product_id := p.1, description := row.description,
    level_percent := pyRound level, status := status,
    days_until_empty := days_until_empty,
    last_restocked := row.last_restocked_at,
    low_threshold := row.low_threshold, auto_deplete := row.auto_deplete,
    daily_depletion_rate :=
      if row.daily_depletion_rate == 0 then 0 else pyRound2 row.daily_depletion_rate }

/-- Insertion step of the `ORDER BY level_percent ASC` sort. -/
def insertByLevel (e : String × PantryRow) : PantryTable → PantryTable
  | [] => [e]
  | x :: xs =>
    if e.2.level_percent < x.2.level_percent then e :: x :: xs
    else x :: insertByLevel e xs

/-- Sort the pantry table ascending by stored `level_percent`. -/
def sortByLevel : PantryTable → PantryTable
  | [] => []
  | x :: xs => insertByLevel x (sortByLevel xs)

/-- `get_pantry_status` (pantry.py lines 333–405): a read-only query producing one
status entry per tracked item, ordered by stored level; the decayed level is *not*
written back (the function performs no UPDATE). -/
def get_pantry_status (apply_depletion : Bool) (now : ℚ) (pantry : PantryTable) :
    List PantryStatusEntry :=
  (sortByLevel pantry).map (pantryStatusEntry apply_depletion now)

/-- The analytics database state touched by the pantry feedback loop. -/
structure SysState where
  pantry : PantryTable
  events : List LedgerEvent
  statsTable : List (String × StatsRow)

/-- `calculate_depletion_rate` (pantry.py lines 16–50): `100 /
avg_days_between_purchases` when the product has a statistics row with a truthy,
positive average; 0 otherwise. -/
def calculate_depletion_rate (statsTable : List (String × StatsRow))
    (product_id : String) : ℚ :=
  match (statsTable.find? (fun p => p.1 == product_id)).map (·.2) with
  | some r =>
    match r.avg_days_between_purchases with
    | some avg => if 0 < avg then 100 / avg else 0
    | none => 0
  | none => 0

/-- The `ON CONFLICT(product_id) DO UPDATE` upsert into `product_statistics`. -/
def upsertStats (product_id : String) (row : StatsRow)
    (tbl : List (String × StatsRow)) : List (String × StatsRow) :=
  if (tbl.find? (fun p => p.1 == product_id)).isSome then
    tbl.map (fun p => if p.1 == product_id then (product_id, row) else p)
  else tbl ++ [(product_id, row)]

/-- A `datetime.now()` value as used by `update_pantry_level`: its epoch seconds
(`now.isoformat()`, stored in timestamp columns) and its calendar date
(`depleted_at[:10]`, stored in `event_date`). -/
structure Timestamp where
  secs : ℚ
  day : PDate

/-- `_record_depletion_event` (pantry.py lines 188–240): insert one synthetic
`pantry_depleted` event with quantity 1 dated today, rerun `update_product_stats`
for the product, then write the refreshed `calculate_depletion_rate` into the
pantry row. -/
noncomputable def record_depletion_event (st : SysState) (product_id : String)
    (now : Timestamp) (config : PredictionConfig) : SysState :=
  let events' := st.events ++
    [{ product_id := product_id, quantity := 1, event_type := "pantry_depleted",
       event_date := now.day, event_timestamp := now.secs }]
  let statsTable' :=
    match update_product_stats events' product_id config now.secs with
    | some row => upsertStats product_id row st.statsTable
    | none => st.statsTable
  let rate := calculate_depletion_rate statsTable' product_id
  { pantry := st.pantry.map (fun p =>
      if p.1 == product_id then (p.1, { p.2 with daily_depletion_rate := rate })
      else p),
    events := events', statsTable := statsTable' }

/-- Result dict of `update_pantry_level`. -/
structure PantryUpdateResult where
  success : Bool
  level_percent : Option Int
  depletion_recorded : Bool
deriving DecidableEq, Repr

/-- `update_pantry_level` (pantry.py lines 118–185): clamp the new level to
[0, 100]; if the item is untracked return an error result; record the depletion
feedback when `new level ≤ 5` and `previous stored level > 5` and
`last_restocked_at` is truthy; finally persist the new level and `last_updated_at`. -/
noncomputable def update_pantry_level (st : SysState) (product_id : String)
    (level : Int) (now : Timestamp) (config : PredictionConfig) :
    SysState × PantryUpdateResult :=
  let level' : Int := max 0 (min 100 level)
  match lookupPantry product_id st.pantry with
  | none => (st, { success := false, level_percent := none,
                   depletion_recorded := false })
  | some row =>
    let doFeedback : Bool :=
      decide (level' ≤ 5) && decide (5 < row.level_percent) &&
        !(row.last_restocked_at == none)
    let st₁ := if doFeedback then record_depletion_event st product_id now config
               else st
    let st₂ := { st₁ with pantry := st₁.pantry.map (fun p =>
        if p.1 == product_id then
          (p.1, { p.2 with level_percent := (level' : ℚ),
                           last_updated_at := some now.secs })
        else p) }
    (st₂, { success := true, level_percent := some level',
            depletion_recorded := doFeedback })

/-! ## Holiday dates (`analytics/seasonal.py`, lines 51–101)

A Python `date` return value is represented by its day number (`toDays`); the
functions below build dates as `toDays ⟨y, m, d⟩` and add `timedelta` day counts
directly on day numbers, which is exactly Python `date` arithmetic. -/

/-- `_calculate_easter` (seasonal.py lines 51–71): the Anonymous Gregorian
algorithm, transcribed operation by operation (`//` is floor division and `%` the
nonnegative remainder, matching `/` and `%` on `ℤ` for these positive divisors). -/
def calculateEaster (year : Int) : Int :=
  let a := year % 19
  let b := year / 100
  let c := year % 100
  let d := b / 4
  let e := b % 4
  let f := (b + 8) / 25
  let g := (b - f + 1) / 3
  let h := (19 * a + b - d - g + 15) % 30
  let i := c / 4
  let k := c % 4
  let el := (32 + 2 * e + 2 * i - h - k) % 7
  let m := (a + 11 * h + 22 * el) / 451
  let month := (h + el - 7 * m + 114) / 31
  let day := ((h + el - 7 * m + 114) % 31) + 1
  toDays ⟨year, month, day⟩

/-- `get_holiday_date` (seasonal.py lines 74–101): thanksgiving via
first-Thursday weekday arithmetic plus three weeks, the three fixed-date holidays,
Easter via `_calculate_easter`, and `None` for any other name. -/
def get_holiday_date (holiday : String) (year : Int) : Option Int :=
  if holiday == "thanksgiving" then
    let nov1 := toDays ⟨year, 11, 1⟩
    let days_until_thursday := (3 - pyWeekday nov1) % 7
    some (nov1 + days_until_thursday + 21)
  else if holiday == "christmas" then some (toDays ⟨year, 12, 25⟩)
  else if holiday == "halloween" then some (toDays ⟨year, 10, 31⟩)
  else if holiday == "easter" then some (calculateEaster year)
  else if holiday == "july_4th" then some (toDays ⟨year, 7, 4⟩)
  else none

/-! ## Specification-side definitions (used to compare code behaviour against the
claims' own formulas) -/

/-- The urgency rule exactly as claim C5 words it: 1.0 when overdue, 0.9 when due
today, `1 - days_until/14` for 1..14, 0.0 beyond 14 days; for `routine` with a
positive score, multiply by 1.2 and clamp to 1.0. -/
def spec_urgency (days_until : Int) (category : String) : ℚ :=
  let base : ℚ :=
    if days_until < 0 then 1
    else if days_until = 0 then 9/10
    else if 1 ≤ days_until ∧ days_until ≤ 14 then 1 - (days_until : ℚ) / 14
    else 0
  if category = "routine" ∧ 0 < base then min 1 (base * (12/10)) else base

/-- The weighted average exactly as claim C2 words it: with `n` intervals
`i_1 .. i_n` oldest-to-newest, interval `i_j` carries weight `0.5 ^ (n - j)`
(here 0-indexed: index `j` carries weight `0.5 ^ (n - 1 - j)`). -/
def spec_ewma (intervals : List Int) : ℚ :=
  (∑ j ∈ Finset.range intervals.length,
      (1/2 : ℚ) ^ (intervals.length - 1 - j) * ((intervals.getD j 0 : Int) : ℚ)) /
    ∑ j ∈ Finset.range intervals.length, (1/2 : ℚ) ^ (intervals.length - 1 - j)

/-- The population standard deviation (divisor `n`) that claim C3 names. -/
noncomputable def spec_popStdDev (xs : List Int) : ℝ :=
  Real.sqrt ((((xs.map (fun x => ((x : ℚ) - listMean xs) ^ 2)).sum) / xs.length : ℚ))

/-! ## Concrete inputs used by the claim theorems and witnesses -/

/-- Concrete input for claim C2: four events spaced 20, 10, 10 days apart. -/
def C2events : List CEvent :=
  [⟨some ⟨1970, 1, 1⟩, 1⟩, ⟨some ⟨1970, 1, 21⟩, 1⟩,
   ⟨some ⟨1970, 1, 31⟩, 1⟩, ⟨some ⟨1970, 2, 10⟩, 1⟩]

/-- Concrete input for claim C3: three events with intervals `[1, 3]`. -/
def C3events : List CEvent :=
  [⟨some ⟨1970, 1, 1⟩, 1⟩, ⟨some ⟨1970, 1, 2⟩, 1⟩, ⟨some ⟨1970, 1, 5⟩, 1⟩]

/-- The ten statistics fields of a `product_statistics` row, without the
`updated_at` wall-clock timestamp. -/
structure StatsCore where
  total_purchases : Int
  total_quantity : Int
  avg_quantity_per_purchase : ℚ
  avg_days_between_purchases : Option ℚ
  std_dev_days : ℝ
  last_purchase_date : Option PDate
  first_purchase_date : Option PDate
  purchase_frequency_score : ℚ
  seasonality_score : ℝ
  detected_category : String

/-- Forget the `updated_at` column of a statistics row. -/
def statsCore (r : StatsRow) : StatsCore :=
  { total_purchases := r.total_purchases, total_quantity := r.total_quantity,
    avg_quantity_per_purchase := r.avg_quantity_per_purchase,
    avg_days_between_purchases := r.avg_days_between_purchases,
    std_dev_days := r.std_dev_days,
    last_purchase_date := r.last_purchase_date,
    first_purchase_date := r.first_purchase_date,
    purchase_frequency_score := r.purchase_frequency_score,
    seasonality_score := r.seasonality_score,
    detected_category := r.detected_category }

/-- Concrete ledger for claim C1: one product with two order events. -/
def C1ledger : List LedgerEvent :=
  [⟨"p1", 1, "order_placed", ⟨2024, 1, 1⟩, 0⟩,
   ⟨"p1", 2, "order_placed", ⟨2024, 1, 8⟩, 0⟩]

/-- Concrete statistics record for the C4 counterexample: 2 purchases, *non-null*
`avg_days_between_purchases = 0.0`, parseable `last_purchase_date`. -/
def C4stats : StatsView :=
  { total_purchases := 2, avg_days_between_purchases := some 0,
    std_dev_days := some 0, last_purchase_date := some (some ⟨2024, 1, 1⟩),
    category_type := some "treat", description := none }

/-- A statistics record satisfying the amended C4 precondition: 3 purchases, average
7 days, std-dev 2, routine category, last purchase 2024-01-15. -/
def C4okstats : StatsView :=
  { total_purchases := 3, avg_days_between_purchases := some 7, std_dev_days := some 2,
    last_purchase_date := some (some ⟨2024, 1, 15⟩), category_type := some "routine",
    description := none }

/-- Concrete pantry row for the C8 witness: stored level 80%, restocked at time 0. -/
def C8row : PantryRow := ⟨none, 80, some 0, some 0, true, 10, 20⟩

/-- Concrete system state for the C8 witness. -/
def C8state : SysState := ⟨[("milk", C8row)], [], []⟩

/-- 9 days after the restock, on 1970-01-10. -/
def C8now : Timestamp := ⟨777600, ⟨1970, 1, 10⟩⟩

/-! ## Helper lemmas -/

/-! ## Sanity checks of the calendar and rounding model -/

example : toDays ⟨1970, 1, 1⟩ = 0 := by decide
example : toDays ⟨2024, 11, 1⟩ = 20028 := by decide
example : toDays ⟨2024, 11, 28⟩ = toDays ⟨2024, 11, 1⟩ + 27 := by decide

example : pyWeekday (toDays ⟨2024, 11, 1⟩) = 4 := by decide
example : pyWeekday (toDays ⟨2024, 11, 28⟩) = 3 := by decide

example : pyRound (5/2) = 2 := by norm_num [pyRound]
example : pyRound (7/2) = 4 := by norm_num [pyRound]
example : pyRound 50 = 50 := by norm_num [pyRound]


/-- A non-empty interval list needs at least two input events. -/
theorem intervalsOf_ne_nil_two_le {l : List CEvent} (h : intervalsOf l ≠ []) :
    2 ≤ l.length := by
  match l with
  | [] => simp [intervalsOf] at h
  | [_] => simp [intervalsOf] at h
  | _ :: _ :: t => simp only [List.length_cons]; omega

/-! ## Claim C5 -/

/-- **C5** (confirmed).  For every integer `days_until` the urgency computed by the
repurchase predictor (predictions.py lines 146–161) is exactly the claimed
piecewise function — 1.0 when overdue, 0.9 when due today, `1 - days_until/14` for
1..14 days, 0.0 beyond — with the routine ×1.2 boost clamped at 1.0 applied only
when the base score is positive; in particular `days_until = 14` yields exactly 0
even for routine items, and `days_until = -1` yields exactly 1. -/
theorem C5_urgency_piecewise :
    (∀ (days_until : Int) (category : String),
        urgencyScore days_until category = spec_urgency days_until category) ∧
    urgencyScore 14 "routine" = 0 ∧ urgencyScore (-1) "routine" = 1 := by
  refine ⟨fun d cat => ?_, ?_, ?_⟩
  · unfold urgencyScore spec_urgency
    have hiff : (cat == "routine") = true ↔ cat = "routine" := beq_iff_eq
    split_ifs with h1 h2 h3 h4 <;>
      simp only [Bool.and_eq_true, decide_eq_true_eq, hiff] <;>
      omega
  · norm_num [urgencyScore]
  · norm_num [urgencyScore]

/-! ## Claim C9 -/

/-- **C9** (confirmed).  `get_holiday_date` returns: for `thanksgiving` the 4th
Thursday of November — a Thursday (`pyWeekday = 3`) between Nov 22 and Nov 28
(day numbers `toDays ⟨y,11,1⟩ + 21 .. + 27`), concretely 2024-11-28 for 2024;
Dec 25 for `christmas`; Oct 31 for `halloween`; Jul 4 for `july_4th`; the
Anonymous Gregorian algorithm's date for `easter` (2024-03-31 and 2025-04-20 in
particular); and `none` for every unknown holiday name. -/
theorem C9_holiday_dates :
    (∀ year : Int, ∃ t : Int,
        get_holiday_date "thanksgiving" year = some t ∧ pyWeekday t = 3 ∧
        toDays ⟨year, 11, 1⟩ + 21 ≤ t ∧ t ≤ toDays ⟨year, 11, 1⟩ + 27) ∧
    get_holiday_date "thanksgiving" 2024 = some (toDays ⟨2024, 11, 28⟩) ∧
    (∀ year : Int, get_holiday_date "christmas" year = some (toDays ⟨year, 12, 25⟩)) ∧
    (∀ year : Int, get_holiday_date "halloween" year = some (toDays ⟨year, 10, 31⟩)) ∧
    (∀ year : Int, get_holiday_date "july_4th" year = some (toDays ⟨year, 7, 4⟩)) ∧
    (∀ year : Int, get_holiday_date "easter" year = some (calculateEaster year)) ∧
    get_holiday_date "easter" 2024 = some (toDays ⟨2024, 3, 31⟩) ∧
    get_holiday_date "easter" 2025 = some (toDays ⟨2025, 4, 20⟩) ∧
    (∀ (holiday : String) (year : Int),
        holiday ≠ "thanksgiving" → holiday ≠ "christmas" → holiday ≠ "halloween" →
        holiday ≠ "easter" → holiday ≠ "july_4th" →
        get_holiday_date holiday year = none) := by
  refine ⟨fun year => ?_, by decide, fun year => rfl, fun year => rfl, fun year => rfl,
    fun year => rfl, by decide, by decide, fun holiday year h1 h2 h3 h4 h5 => ?_⟩
  · refine ⟨toDays ⟨year, 11, 1⟩ + (3 - pyWeekday (toDays ⟨year, 11, 1⟩)) % 7 + 21,
      rfl, ?_, ?_, ?_⟩ <;>
    · unfold pyWeekday
      generalize toDays ⟨year, 11, 1⟩ = n
      omega
  · simp only [get_holiday_date, beq_iff_eq]
    rw [if_neg h1, if_neg h2, if_neg h3, if_neg h4, if_neg h5]

/-! ## Claim C2 -/

theorem range_reverse_eq (n : ℕ) :
    (List.range n).reverse = (List.range n).map (fun i => n - 1 - i) := by
  rw [List.range_eq_range', List.reverse_range', ← List.range_eq_range']
  simp

theorem ewmaWeights_eq_map (n : ℕ) :
    ewmaWeights n = (List.range n).map (fun i => (1/2 : ℚ) ^ (n - 1 - i)) := by
  unfold ewmaWeights
  rw [← List.map_reverse, range_reverse_eq, List.map_map]
  rfl

theorem zipWith_range_mul_sum (f : ℕ → ℚ) (xs : List Int) :
    (List.zipWith (fun (i : ℕ) (v : Int) => f i * (v : ℚ)) (List.range xs.length) xs).sum
      = ∑ j ∈ Finset.range xs.length, f j * ((xs.getD j 0 : Int) : ℚ) := by
  induction xs generalizing f with
  | nil => simp
  | cons x t ih =>
    rw [List.length_cons, List.range_succ_eq_map, List.zipWith_cons_cons,
      List.zipWith_map_left, List.sum_cons, Finset.sum_range_succ' _ t.length]
    simp only [List.getD_cons_succ, List.getD_cons_zero]
    rw [ih (fun i => f (i + 1))]
    ring

theorem sum_map_range (f : ℕ → ℚ) (n : ℕ) :
    ((List.range n).map f).sum = ∑ j ∈ Finset.range n, f j := by
  induction n with
  | zero => simp
  | succ k ih =>
    rw [List.range_succ, List.map_append, List.sum_append, Finset.sum_range_succ, ih]
    simp

theorem ewmaOf_eq_spec (intervals : List Int) : ewmaOf intervals = spec_ewma intervals := by
  unfold ewmaOf spec_ewma
  rw [ewmaWeights_eq_map, List.zipWith_map_left, zipWith_range_mul_sum, sum_map_range]

/-- **C2** (confirmed).  For every event list with at least one positive whole-day
interval, `calculate_consumption_rate` returns `days_between` equal to the claimed
weighted average, where the interval `k` steps before the most recent one carries
weight `0.5 ^ k`; concretely, intervals `[20, 10, 10]` oldest-to-newest yield
`(20×0.25 + 10×0.5 + 10×1.0) / 1.75 = 80/7 ≈ 11.43`. -/
theorem C2_ewma_weighting :
    (∀ events : List CEvent, intervalsOf events ≠ [] →
        (calculate_consumption_rate events).days_between
          = some (spec_ewma (intervalsOf events))) ∧
    intervalsOf C2events = [20, 10, 10] ∧
    (calculate_consumption_rate C2events).days_between = some (80 / 7) := by
  have hmain : ∀ events : List CEvent, intervalsOf events ≠ [] →
      (calculate_consumption_rate events).days_between
        = some (spec_ewma (intervalsOf events)) := by
    intro events h
    have h2 := intervalsOf_ne_nil_two_le h
    unfold calculate_consumption_rate
    rw [if_neg (by omega), if_neg h]
    simp only
    rw [ewmaOf_eq_spec]
  refine ⟨hmain, by decide, ?_⟩
  rw [hmain C2events (by decide), (by decide : intervalsOf C2events = [20, 10, 10])]
  rw [← ewmaOf_eq_spec]
  norm_num [ewmaOf, ewmaWeights, List.range_succ]

/-! ## Claim C3 -/

/-- **C3 counterexample.**  On intervals `[1, 3]` the code returns
`statistics.stdev([1,3]) = √2 ≈ 1.414` (sample formula, divisor `n - 1`), while the
population formula (divisor `n`) claimed by the spec gives `1`; the two disagree. -/
theorem C3_counterexample :
    intervalsOf C3events = [1, 3] ∧
    (calculate_consumption_rate C3events).std_dev ≠ spec_popStdDev [1, 3] := by
  refine ⟨by decide, ?_⟩
  have hstd : (calculate_consumption_rate C3events).std_dev = Real.sqrt ((2 : ℚ)) := by
    unfold calculate_consumption_rate
    rw [if_neg (by decide)]
    simp only [(by decide : intervalsOf C3events = [1, 3])]
    rw [if_neg (by decide), if_pos (by decide)]
    unfold pyStdev
    norm_num [sampleVar, listMean]
  have hpop : spec_popStdDev [1, 3] = 1 := by
    unfold spec_popStdDev
    have h1 : (((([1, 3] : List Int).map
        (fun x => ((x : ℚ) - listMean [1, 3]) ^ 2)).sum) / ([1, 3] : List Int).length
          : ℚ) = 1 := by
      norm_num [listMean]
    rw [h1]
    norm_num
  rw [hstd, hpop]
  intro h
  have h2 : (((2 : ℚ) : ℝ)) = 1 := by
    have hs := Real.sq_sqrt (by norm_num : (0 : ℝ) ≤ ((2 : ℚ) : ℝ))
    rw [h] at hs
    norm_num at hs
  norm_num at h2

/-- **C3 amended** (the claim corrected to the sample formula).  For every input
list with at least two positive intervals, the returned `std_dev` is the unweighted
*sample* standard deviation of the intervals (divisor `n - 1`, Python
`statistics.stdev`); with exactly one interval it is 0. -/
theorem C3_amended (events : List CEvent) :
    (2 ≤ (intervalsOf events).length →
      (calculate_consumption_rate events).std_dev
        = Real.sqrt (((((intervalsOf events).map
            (fun x => ((x : ℚ) - listMean (intervalsOf events)) ^ 2)).sum)
              / ((intervalsOf events).length - 1) : ℚ))) ∧
    ((intervalsOf events).length = 1 →
      (calculate_consumption_rate events).std_dev = 0) := by
  constructor
  · intro h
    have hne : intervalsOf events ≠ [] := by
      intro h0
      rw [h0] at h
      simp at h
    have h2 := intervalsOf_ne_nil_two_le hne
    unfold calculate_consumption_rate
    rw [if_neg (by omega), if_neg hne]
    simp only
    rw [if_pos (by omega)]
    rfl
  · intro h
    have hne : intervalsOf events ≠ [] := by
      intro h0
      rw [h0] at h
      simp at h
    have h2 := intervalsOf_ne_nil_two_le hne
    unfold calculate_consumption_rate
    rw [if_neg (by omega), if_neg hne]
    simp only
    rw [if_neg (by omega)]

/-- Witness for C3: the amended statement applied to the concrete event list with
intervals `[1, 3]`. -/
theorem C3_amended_witness :
    2 ≤ (intervalsOf C3events).length ∧
    (calculate_consumption_rate C3events).std_dev
      = Real.sqrt (((((intervalsOf C3events).map
          (fun x => ((x : ℚ) - listMean (intervalsOf C3events)) ^ 2)).sum)
            / ((intervalsOf C3events).length - 1) : ℚ)) :=
  ⟨by decide, (C3_amended C3events).1 (by decide)⟩

/-! ## Claim C1 -/

/-- **C1 counterexample.**  Two runs of `update_product_stats` over the unchanged
event ledger, at wall-clock times 0 and 1, persist *different* rows: the upsert
writes `updated_at = datetime.now().isoformat()` (statistics.py lines 164, 186–199),
so the persisted record is not bit-identical and not a pure function of the event
ledger plus configuration. -/
theorem C1_counterexample :
    update_product_stats C1ledger "p1" {} 0 ≠ update_product_stats C1ledger "p1" {} 1 := by
  intro h
  have hne : eventsFor "p1" C1ledger ≠ [] := by decide
  have h2 := congrArg (Option.map StatsRow.updated_at) h
  simp only [update_product_stats, if_neg hne, Option.map_some'] at h2
  exact absurd (Option.some.inj h2) (by norm_num)

/-- **C1 amended.**  All ten statistics fields of the persisted record are a pure
function of the product's qualifying event list and the configuration: any two runs
of `update_product_stats` (at any wall-clock times, over any two ledgers whose
qualifying event query for the product agrees) persist rows that are bit-identical
except for the `updated_at` timestamp column. -/
theorem C1_amended (L₁ L₂ : List LedgerEvent) (product_id : String)
    (config : PredictionConfig) (t₁ t₂ : ℚ)
    (h : eventsFor product_id L₁ = eventsFor product_id L₂) :
    (update_product_stats L₁ product_id config t₁).map statsCore
      = (update_product_stats L₂ product_id config t₂).map statsCore := by
  unfold update_product_stats
  rw [h]
  by_cases he : eventsFor product_id L₂ = []
  · rw [if_pos he, if_pos he]
  · rw [if_neg he, if_neg he]
    rfl

/-- Witness for C1: the amended statement applied to the concrete two-event ledger
at wall-clock times 0 and 1. -/
theorem C1_amended_witness :
    eventsFor "p1" C1ledger = eventsFor "p1" C1ledger ∧
    (update_product_stats C1ledger "p1" {} 0).map statsCore
      = (update_product_stats C1ledger "p1" {} 1).map statsCore :=
  ⟨rfl, C1_amended C1ledger C1ledger "p1" {} 0 1 rfl⟩

/-! ## Claim C4 -/

/-- **C4 counterexample.**  The claim's precondition asks only for a *non-null*
average; but the code's guard is Python truthiness (`if not avg_days`,
predictions.py line 90), which also fires on `0.0`.  For a statistics record with
`total_purchases = 2`, `avg_days_between_purchases = 0.0` (non-null) and a parseable
`last_purchase_date`, the claim demands `predicted_date = last + 0 - 0×m`, yet the
code returns the no-prediction record. -/
theorem C4_counterexample :
    2 ≤ C4stats.total_purchases ∧
    C4stats.avg_days_between_purchases = some 0 ∧
    C4stats.last_purchase_date = some (some ⟨2024, 1, 1⟩) ∧
    (predict_repurchase_date "p1" (some C4stats) 0).predicted_date = none := by
  exact ⟨by norm_num [C4stats], rfl, rfl, rfl⟩

/-- **C4 amended** ("non-null" strengthened to "non-null and non-zero", matching the
truthiness guard).  If the statistics have `total_purchases ≥ 2`, a non-null,
non-zero `avg_days_between_purchases` and a parseable `last_purchase_date`, then
`predicted_date = last_purchase_date + avg - std_dev × m` with `m = 1.0` for
`routine`, `0.5` for `regular` and `0.0` otherwise; in every other case the result
is a valid no-prediction record: `predicted_date` and `days_until` are `None` and
urgency and confidence are 0. -/
theorem C4_predictor_contract :
    (∀ (product_id : String) (s : StatsView) (now : ℚ) (a : ℚ) (d : PDate),
        2 ≤ s.total_purchases →
        s.avg_days_between_purchases = some a → a ≠ 0 →
        s.last_purchase_date = some (some d) →
        (predict_repurchase_date product_id (some s) now).predicted_date
          = some ((toDays d : ℚ) + a - s.std_dev_days.getD 0 *
              (if s.category_type.getD "uncategorized" = "routine" then 1
               else if s.category_type.getD "uncategorized" = "regular" then 1/2
               else 0))) ∧
    (∀ (product_id : String) (stats : Option StatsView) (now : ℚ),
        (stats = none ∨ ∃ s, stats = some s ∧
          (s.total_purchases < 2 ∨ s.avg_days_between_purchases = none ∨
           s.avg_days_between_purchases = some 0 ∨ s.last_purchase_date = none ∨
           s.last_purchase_date = some none)) →
        (predict_repurchase_date product_id stats now).predicted_date = none ∧
        (predict_repurchase_date product_id stats now).days_until = none ∧
        (predict_repurchase_date product_id stats now).urgency = 0 ∧
        (predict_repurchase_date product_id stats now).confidence = 0) := by
  constructor
  · intro product_id s now a d htot havg ha hlast
    simp only [predict_repurchase_date]
    rw [if_neg (by omega), if_neg (by simp [havg, hlast, ha]), hlast]
    simp only [havg, Option.getD_some]
    have hb : ∀ c : String, (c == "routine") = true ↔ c = "routine" := fun c => beq_iff_eq
    by_cases h1 : s.category_type.getD "uncategorized" = "routine" <;>
      by_cases h2 : s.category_type.getD "uncategorized" = "regular" <;>
      simp [h1, h2]
  · intro product_id stats now h
    rcases h with h | ⟨s, rfl, hcase⟩
    · subst h
      exact ⟨rfl, rfl, rfl, rfl⟩
    · by_cases h2 : s.total_purchases < 2
      · simp [predict_repurchase_date, if_pos h2, noPrediction]
      · rcases hcase with h3 | h3 | h3 | h3 | h3
        · omega
        all_goals
          simp only [predict_repurchase_date, if_neg h2]
          simp [h3, noPrediction]

/-- Witness for C4: the contract applied to a concrete predictable record (routine,
buffer `2 × 1.0`) and to the concrete truthiness edge case. -/
theorem C4_predictor_contract_witness :
    (predict_repurchase_date "p1" (some C4okstats) 0).predicted_date
      = some ((toDays ⟨2024, 1, 15⟩ : ℚ) + 7 - 2 * 1) ∧
    (predict_repurchase_date "p2" (some C4stats) 0).urgency = 0 := by
  constructor
  · have h := C4_predictor_contract.1 "p1" C4okstats 0 7 ⟨2024, 1, 15⟩
      (by norm_num [C4okstats]) rfl (by norm_num) rfl
    rw [h]
    norm_num [C4okstats]
  · exact (C4_predictor_contract.2 "p2" (some C4stats) 0
      (Or.inr ⟨C4stats, rfl, Or.inr (Or.inr (Or.inl rfl))⟩)).2.2.1

/-! ## Claim C6 -/

/-- `find?` over a key-preserving row transformation finds the transformed row. -/
theorem find?_map_key {β : Type} (g : String × β → String × β)
    (hg : ∀ p, (g p).1 = p.1) (pid : String) (tbl : List (String × β)) :
    (tbl.map g).find? (fun p => p.1 == pid)
      = (tbl.find? (fun p => p.1 == pid)).map g := by
  induction tbl with
  | nil => rfl
  | cons x xs ih =>
    by_cases h : (x.1 == pid) = true
    · simp [List.find?_cons, hg, h]
    · simp [List.find?_cons, hg, h, ih]

/-- A successful `set_product_category` leaves the product's row holding exactly the
requested category and override flag. -/
theorem set_category_lookup (tbl : ProductsTable) (pid cat : String) (ov : Bool)
    (tbl' : ProductsTable) (res : CategoryResult)
    (h : set_product_category tbl pid cat ov = .ok (tbl', res)) :
    lookupProduct pid tbl' = some ⟨cat, ov⟩ := by
  unfold set_product_category at h
  split at h
  · exact absurd h (by simp)
  · cases hfind : lookupProduct pid tbl with
    | some row =>
      rw [hfind] at h
      simp only [Except.ok.injEq, Prod.mk.injEq] at h
      obtain ⟨htbl, -⟩ := h
      subst htbl
      unfold lookupProduct at hfind ⊢
      rw [find?_map_key _ (fun p => by by_cases hp : (p.1 == pid) = true <;> simp [hp])
          pid tbl]
      cases hq : tbl.find? (fun p => p.1 == pid) with
      | none => rw [hq] at hfind; simp at hfind
      | some q =>
        rw [hq] at hfind
        have hqeq : q.1 = pid := by
          have hp := List.find?_some hq
          simpa using hp
        simp [hqeq]
    | none =>
      rw [hfind] at h
      simp only [Except.ok.injEq, Prod.mk.injEq] at h
      obtain ⟨htbl, -⟩ := h
      subst htbl
      unfold lookupProduct at hfind ⊢
      rw [List.find?_append]
      have hnone : tbl.find? (fun p => p.1 == pid) = none := by
        cases hq : tbl.find? (fun p => p.1 == pid) with
        | none => rfl
        | some q => rw [hq] at hfind; simp at hfind
      rw [hnone]
      simp [List.find?_cons]

/-- **C6** (confirmed).  (a) `auto_categorize_all` never touches a product whose
`category_override` flag is set: its entire row (category and flag) is unchanged.
(b) After `set_product_category(..., is_override=True)`, a subsequent
`auto_categorize_all` still finds exactly the requested category with the override
flag intact. -/
theorem C6_override_stickiness :
    (∀ (tbl : ProductsTable) (stats : String → Option CatStats)
        (config : PredictionConfig) (pid : String) (r : ProductRow),
        lookupProduct pid tbl = some r → r.category_override = true →
        lookupProduct pid (auto_categorize_all stats config tbl) = some r) ∧
    (∀ (tbl tbl' : ProductsTable) (stats : String → Option CatStats)
        (config : PredictionConfig) (pid cat : String) (res : CategoryResult),
        set_product_category tbl pid cat true = .ok (tbl', res) →
        lookupProduct pid (auto_categorize_all stats config tbl')
          = some ⟨cat, true⟩) := by
  have part1 : ∀ (tbl : ProductsTable) (stats : String → Option CatStats)
      (config : PredictionConfig) (pid : String) (r : ProductRow),
      lookupProduct pid tbl = some r → r.category_override = true →
      lookupProduct pid (auto_categorize_all stats config tbl) = some r := by
    intro tbl stats config pid r hl ho
    unfold lookupProduct at hl ⊢
    unfold auto_categorize_all
    rw [find?_map_key _ (fun p => by by_cases hp : p.2.category_override <;> simp [hp])
        pid tbl]
    cases hq : tbl.find? (fun p => p.1 == pid) with
    | none => rw [hq] at hl; simp at hl
    | some q =>
      rw [hq] at hl
      simp only [Option.map_some', Option.some.injEq] at hl
      subst hl
      simp [ho]
  exact ⟨part1, fun tbl tbl' stats config pid cat res hset =>
    part1 tbl' stats config pid ⟨cat, true⟩
      (set_category_lookup tbl pid cat true tbl' res hset) rfl⟩

/-- Witness for C6: a concrete one-product table, overridden to `treat`, survives
`auto_categorize_all` (with no statistics and default config) unchanged. -/
theorem C6_override_stickiness_witness :
    set_product_category [("p1", ⟨"regular", false⟩)] "p1" "treat" true
      = .ok ([("p1", ⟨"treat", true⟩)], ⟨"p1", "treat", some "regular", false⟩) ∧
    lookupProduct "p1" (auto_categorize_all (fun _ => none) {}
        [("p1", ⟨"treat", true⟩)]) = some ⟨"treat", true⟩ := by
  have hset : set_product_category [("p1", ⟨"regular", false⟩)] "p1" "treat" true
      = .ok ([("p1", ⟨"treat", true⟩)], ⟨"p1", "treat", some "regular", false⟩) := by
    rfl
  exact ⟨hset, C6_override_stickiness.2 [("p1", ⟨"regular", false⟩)]
    [("p1", ⟨"treat", true⟩)] (fun _ => none) {} "p1" "treat"
    ⟨"p1", "treat", some "regular", false⟩ hset⟩

/-! ## Claims C7 and C10 -/

theorem mem_insertByLevel (e x : String × PantryRow) (l : PantryTable) :
    x ∈ insertByLevel e l ↔ x = e ∨ x ∈ l := by
  induction l with
  | nil => simp [insertByLevel]
  | cons y ys ih =>
    unfold insertByLevel
    by_cases h : e.2.level_percent < y.2.level_percent
    · simp [h]
    · simp only [if_neg h, List.mem_cons, ih]
      tauto

theorem mem_sortByLevel (x : String × PantryRow) (l : PantryTable) :
    x ∈ sortByLevel l ↔ x ∈ l := by
  induction l with
  | nil => simp [sortByLevel]
  | cons y ys ih =>
    unfold sortByLevel
    rw [mem_insertByLevel, ih]
    simp

/-- **C7** (confirmed).  For every tracked item with auto-depletion enabled and a
positive depletion rate, a status read reports the lazily decayed level
`max(0, stored - elapsed_days × rate)` with `elapsed_days = (now - last_updated_at)
/ 86400` seconds; `get_pantry_status` performs no write, so the decayed value is
not persisted (it is a pure function of the table). -/
theorem C7_lazy_decay (pantry : PantryTable) (now : ℚ) (pid : String)
    (row : PantryRow) (t : ℚ)
    (hmem : (pid, row) ∈ pantry) (hauto : row.auto_deplete = true)
    (hrate : 0 < row.daily_depletion_rate) (hupd : row.last_updated_at = some t) :
    pantryStatusEntry true now (pid, row) ∈ get_pantry_status true now pantry ∧
    (pantryStatusEntry true now (pid, row)).level_percent
      = pyRound (max 0 (row.level_percent
          - (now - t) / 86400 * row.daily_depletion_rate)) := by
  constructor
  · exact List.mem_map_of_mem _ ((mem_sortByLevel _ _).mpr hmem)
  · have hne : row.daily_depletion_rate ≠ 0 := ne_of_gt hrate
    simp [pantryStatusEntry, hauto, hupd, hne]

/-- Witness for C7: the claim's round-trip instance — restocked to 100% with rate
10%/day, read after exactly 5 elapsed days (432000 s), reports level 50. -/
theorem C7_lazy_decay_witness :
    pantryStatusEntry true 432000 ("milk",
        ⟨none, 100, some 0, some 0, true, 10, 20⟩)
      ∈ get_pantry_status true 432000 [("milk",
        ⟨none, 100, some 0, some 0, true, 10, 20⟩)] ∧
    (pantryStatusEntry true 432000 ("milk",
        ⟨none, 100, some 0, some 0, true, 10, 20⟩)).level_percent = 50 := by
  have h := C7_lazy_decay [("milk", ⟨none, 100, some 0, some 0, true, 10, 20⟩)]
    432000 "milk" ⟨none, 100, some 0, some 0, true, 10, 20⟩ 0
    (by simp) rfl (by norm_num) rfl
  refine ⟨h.1, ?_⟩
  rw [h.2]
  norm_num [pyRound]

/-- **C10** (confirmed).  For every tracked item with auto-depletion disabled or a
zero depletion rate, a status read with `apply_depletion = True` reports the stored
level (rounded), with no elapsed-time decay regardless of `now`. -/
theorem C10_no_decay_when_disabled (pantry : PantryTable) (now : ℚ) (pid : String)
    (row : PantryRow)
    (hmem : (pid, row) ∈ pantry)
    (hoff : row.auto_deplete = false ∨ row.daily_depletion_rate = 0) :
    pantryStatusEntry true now (pid, row) ∈ get_pantry_status true now pantry ∧
    (pantryStatusEntry true now (pid, row)).level_percent
      = pyRound row.level_percent := by
  refine ⟨List.mem_map_of_mem _ ((mem_sortByLevel _ _).mpr hmem), ?_⟩
  rcases hoff with h | h <;> simp [pantryStatusEntry, h]

/-- Witness for C10: an item with auto-depletion off and rate 5 still reports its
stored 70% three days after its last update. -/
theorem C10_no_decay_witness :
    (pantryStatusEntry true 259200 ("rice",
        ⟨none, 70, some 0, some 0, false, 5, 20⟩)).level_percent = 70 := by
  have h := C10_no_decay_when_disabled [("rice",
      ⟨none, 70, some 0, some 0, false, 5, 20⟩)] 259200 "rice"
    ⟨none, 70, some 0, some 0, false, 5, 20⟩ (by simp) (Or.inl rfl)
  rw [h.2]
  norm_num [pyRound]

/-! ## Claim C8 -/

theorem length_insertByDate (e : LedgerEvent) (l : List LedgerEvent) :
    (insertByDate e l).length = l.length + 1 := by
  induction l with
  | nil => rfl
  | cons x xs ih =>
    unfold insertByDate
    by_cases h : toDays e.event_date < toDays x.event_date
    · simp [h]
    · simp only [if_neg h, List.length_cons, ih]

theorem length_sortByDate (l : List LedgerEvent) :
    (sortByDate l).length = l.length := by
  induction l with
  | nil => rfl
  | cons x xs ih =>
    unfold sortByDate
    rw [length_insertByDate, ih, List.length_cons]

/-- Appending a qualifying event for the product makes its event query non-empty. -/
theorem eventsFor_append_ne (pid : String) (L : List LedgerEvent)
    (e : LedgerEvent) (hp : e.product_id = pid)
    (ht : e.event_type = "order_placed" ∨ e.event_type = "pantry_depleted") :
    eventsFor pid (L ++ [e]) ≠ [] := by
  intro h
  have hlen := congrArg List.length h
  unfold eventsFor at hlen
  rw [length_sortByDate, List.filter_append] at hlen
  have he : (List.filter (fun e =>
      e.product_id == pid &&
        (e.event_type == "order_placed" || e.event_type == "pantry_depleted")) [e])
      = [e] := by
    have : (e.product_id == pid &&
        (e.event_type == "order_placed" || e.event_type == "pantry_depleted")) = true := by
      rcases ht with h' | h' <;> simp [hp, h']
    simp [List.filter, this]
  rw [he] at hlen
  simp at hlen

/-- Looking the product up after `upsertStats` yields exactly the upserted row. -/
theorem lookup_upsertStats (pid : String) (row : StatsRow)
    (tbl : List (String × StatsRow)) :
    (((upsertStats pid row tbl).find? (fun p => p.1 == pid)).map (·.2)) = some row := by
  unfold upsertStats
  by_cases h : (tbl.find? (fun p => p.1 == pid)).isSome
  · rw [if_pos h]
    obtain ⟨q, hq⟩ := Option.isSome_iff_exists.mp h
    have hg : ∀ p : String × StatsRow,
        ((if p.1 == pid then (pid, row) else p)).1 = p.1 := by
      intro p
      by_cases hp : (p.1 == pid) = true
      · have : p.1 = pid := by simpa using hp
        simp [hp, this]
      · simp [hp]
    rw [show (fun p : String × StatsRow => if p.1 == pid then (pid, row) else p)
        = (fun p : String × StatsRow => if p.1 == pid then (pid, row) else p) from rfl]
    rw [find?_map_key _ hg pid tbl, hq]
    have hqk : q.1 = pid := by
      have hp := List.find?_some hq
      simpa using hp
    simp [hqk]
  · rw [if_neg h]
    rw [List.find?_append]
    rw [Option.not_isSome_iff_eq_none.mp h]
    simp [List.find?_cons]

/-- Looking up a key after a key-local row update is the update of the lookup. -/
theorem lookup_map_update {β : Type} (pid : String) (upd : β → β)
    (tbl : List (String × β)) :
    (((tbl.map (fun p => if p.1 == pid then (p.1, upd p.2) else p)).find?
        (fun p => p.1 == pid)).map (·.2))
      = ((tbl.find? (fun p => p.1 == pid)).map (·.2)).map upd := by
  have hg : ∀ p : String × β, ((if p.1 == pid then (p.1, upd p.2) else p)).1 = p.1 := by
    intro p
    by_cases hp : (p.1 == pid) = true <;> simp [hp]
  rw [find?_map_key _ hg pid tbl]
  cases hq : tbl.find? (fun p => p.1 == pid) with
  | none => rfl
  | some q =>
    have hqk : q.1 = pid := by
      have hp := List.find?_some hq
      simpa using hp
    simp [hqk]

/-- **C8** (confirmed).  Manually setting a pantry level to a (clamped) value ≤ 5
when the stored level was > 5 and `last_restocked_at` exists appends exactly one
`pantry_depleted` event (quantity 1) dated today to the ledger, recomputes and
upserts the product's statistics from the extended ledger, and refreshes the item's
`daily_depletion_rate` from those statistics while persisting the new level; if any
of the three conditions fails, no depletion event is recorded. -/
theorem C8_depletion_feedback :
    (∀ (st : SysState) (pid : String) (level : Int) (now : Timestamp)
        (config : PredictionConfig) (row : PantryRow),
        lookupPantry pid st.pantry = some row →
        max 0 (min 100 level) ≤ 5 → 5 < row.level_percent →
        row.last_restocked_at ≠ none →
        ∃ (st' : SysState) (res : PantryUpdateResult),
          update_pantry_level st pid level now config = (st', res) ∧
          st'.events = st.events ++
            [⟨pid, 1, "pantry_depleted", now.day, now.secs⟩] ∧
          ((st'.statsTable.find? (fun p => p.1 == pid)).map (·.2))
            = update_product_stats st'.events pid config now.secs ∧
          lookupPantry pid st'.pantry = some { row with
              level_percent := (max 0 (min 100 level) : ℚ),
              last_updated_at := some now.secs,
              daily_depletion_rate := calculate_depletion_rate st'.statsTable pid } ∧
          res.depletion_recorded = true) ∧
    (∀ (st : SysState) (pid : String) (level : Int) (now : Timestamp)
        (config : PredictionConfig) (row : PantryRow),
        lookupPantry pid st.pantry = some row →
        ¬(max 0 (min 100 level) ≤ 5 ∧ 5 < row.level_percent ∧
            row.last_restocked_at ≠ none) →
        (update_pantry_level st pid level now config).1.events = st.events) := by
  constructor
  · intro st pid level now config row hlook h1 h2 h3
    have hfb : (decide (max 0 (min 100 level) ≤ 5) && decide (5 < row.level_percent) &&
        !(row.last_restocked_at == none)) = true := by
      cases hrest : row.last_restocked_at with
      | none => exact absurd hrest h3
      | some t => simp [h1, h2, hrest]
    unfold update_pantry_level
    rw [hlook]
    simp only [hfb, if_true]
    refine ⟨_, _, rfl, ?_, ?_, ?_, rfl⟩
    · unfold record_depletion_event
      rfl
    · unfold record_depletion_event
      simp only
      have hne := eventsFor_append_ne pid st.events
        ⟨pid, 1, "pantry_depleted", now.day, now.secs⟩ rfl (Or.inr rfl)
      cases hu : update_product_stats
          (st.events ++ [⟨pid, 1, "pantry_depleted", now.day, now.secs⟩])
          pid config now.secs with
      | none =>
        unfold update_product_stats at hu
        rw [if_neg hne] at hu
        exact absurd hu (by simp)
      | some r =>
        exact lookup_upsertStats pid r st.statsTable
    · unfold record_depletion_event
      simp only
      unfold lookupPantry at hlook ⊢
      obtain ⟨q, hq, hq2⟩ : ∃ q, st.pantry.find? (fun p => p.1 == pid) = some q ∧
          q.2 = row := by
        cases hq : st.pantry.find? (fun p => p.1 == pid) with
        | none =>
          rw [hq] at hlook
          simp at hlook
        | some q =>
          rw [hq] at hlook
          simp only [Option.map_some', Option.some.injEq] at hlook
          exact ⟨q, rfl, hlook⟩
      have hqk : q.1 = pid := by
        have hp := List.find?_some hq
        simpa using hp
      rw [find?_map_key _ (fun p => by by_cases hp : (p.1 == pid) = true <;> simp [hp])
          pid, find?_map_key _
          (fun p => by by_cases hp : (p.1 == pid) = true <;> simp [hp]) pid, hq]
      simp [hqk, hq2]
  · intro st pid level now config row hlook hneg
    have hfb : (decide (max 0 (min 100 level) ≤ 5) && decide (5 < row.level_percent) &&
        !(row.last_restocked_at == none)) = false := by
      rcases not_and_or.mp hneg with h | h
      · simp [h]
      · rcases not_and_or.mp h with h' | h'
        · simp [h']
        · push_neg at h'
          simp [h']
    unfold update_pantry_level
    rw [hlook]
    simp only [hfb, Bool.false_eq_true, if_false]

/-- Witness for C8: setting the 80% item to 3% nine days after restocking records
exactly one `pantry_depleted` event dated today and refreshes the statistics and
depletion rate. -/
theorem C8_depletion_feedback_witness :
    ∃ (st' : SysState) (res : PantryUpdateResult),
      update_pantry_level C8state "milk" 3 C8now {} = (st', res) ∧
      st'.events = C8state.events ++
        [⟨"milk", 1, "pantry_depleted", C8now.day, C8now.secs⟩] ∧
      ((st'.statsTable.find? (fun p => p.1 == "milk")).map (·.2))
        = update_product_stats st'.events "milk" {} C8now.secs ∧
      lookupPantry "milk" st'.pantry = some { C8row with
          level_percent := (max 0 (min 100 3) : ℚ),
          last_updated_at := some C8now.secs,
          daily_depletion_rate := calculate_depletion_rate st'.statsTable "milk" } ∧
      res.depletion_recorded = true :=
  C8_depletion_feedback.1 C8state "milk" 3 C8now {} C8row rfl (by decide)
    (by norm_num [C8row]) (by simp [C8row])

/-- Witness for C2: the general weighting statement applied to the concrete
4-event list with intervals `[20, 10, 10]`. -/
theorem C2_ewma_weighting_witness :
    (calculate_consumption_rate C2events).days_between
      = some (spec_ewma (intervalsOf C2events)) :=
  C2_ewma_weighting.1 C2events (by decide)

/-- Witness for C9: an unknown holiday name yields `none`, and a known fixed-date
holiday is applied at a concrete year. -/
theorem C9_holiday_dates_witness :
    get_holiday_date "groundhog_day" 2024 = none ∧
    get_holiday_date "christmas" 2023 = some (toDays ⟨2023, 12, 25⟩) :=
  ⟨C9_holiday_dates.2.2.2.2.2.2.2.2 "groundhog_day" 2024 (by decide) (by decide)
      (by decide) (by decide) (by decide),
    C9_holiday_dates.2.2.1 2023⟩
